import Mathlib

/-!
Shallow embedding of the WebHCat client (src/WebHCat.ts): a rotating host
pool with a cursor, a request dispatcher that injects a `user.name` query
parameter and retries once (recursively) on HTTP 503, and thin catalog-query
methods built on top of it.
-/

/-- A JSON-like value as decoded from a response body.  The `undef`
constructor models the JavaScript `undefined` produced by projecting a field
that is absent from the response object. -/
inductive Value where
  | null : Value
  | undef : Value
  | bool : Bool → Value
  | num : Int → Value
  | str : String → Value
  | arr : List Value → Value
  | obj : List (String × Value) → Value
deriving Repr

/-- Errors surfaced by the `request-promise-native` transport: a
`StatusCodeError` carrying an HTTP status code, or any other failure
(network error, JSON decode failure, ...). -/
inductive ReqError where
  | statusCode : Int → ReqError
  | other : String → ReqError
deriving Repr, DecidableEq

/-- The test performed in `WebHCat.request`'s catch handler:
`error instanceof StatusCodeError && error.statusCode === 503`. -/
def ReqError.isBusy : ReqError → Bool
  | ReqError.statusCode code => code == 503
  | ReqError.other _ => false

/-- A JavaScript string-to-string object (the `StringMap` interface),
modelled as an association list without duplicate keys. -/
abbrev StringMap := List (String × String)

/-- JavaScript object key assignment `m[k] = v`: overwrite the value stored
at an existing key in place, otherwise append the new binding at the end. -/
def setKey : StringMap → String → String → StringMap
  | [], k, v => [(k, v)]
  | p :: rest, k, v => if p.1 == k then (k, v) :: rest else p :: setKey rest k v

/-- JavaScript object key lookup `m[k]` (as an `Option`). -/
def lookupKey (m : StringMap) (k : String) : Option String :=
  (m.find? (fun p => p.1 == k)).map Prod.snd

/-- One request handed to the `request-promise-native` transport, mirroring
the options object built in `WebHCat.request`. -/
structure HttpRequest where
  method : String
  uri : String
  baseUrl : String
  qs : StringMap
  form : Option StringMap
deriving Repr, DecidableEq

/-- The mutable fields of the `WebHCat` class. -/
structure WebHCat where
  activeHostIndex : Int
  username : String
  port : Int
  hosts : List String
  baseURL : String
deriving Repr, DecidableEq

/-- JavaScript array indexing `hosts[i]` followed by template-literal
interpolation: an out-of-range index yields `undefined`, which interpolates
as the string `"undefined"`. -/
def jsIndexAsString (hosts : List String) (i : Int) : String :=
  if h : 0 ≤ i ∧ i.toNat < hosts.length then hosts.get ⟨i.toNat, h.2⟩
  else "undefined"

/-- WebHCat.changeHost: advance the cursor by one, reset it to 0 when it
equals the pool length, and recompute the stored base URL from the host at
the new cursor. -/
def WebHCat.changeHost (c : WebHCat) : WebHCat :=
  let i0 := c.activeHostIndex + 1
  let i := if i0 = (c.hosts.length : Int) then 0 else i0
  let activeHost := jsIndexAsString c.hosts i
  { c with
      activeHostIndex := i
      baseURL := "http://" ++ activeHost ++ ":" ++ toString c.port ++ "/templeton/v1" }

/-- The optional construction parameters (the `WebHCatOptions` interface). -/
structure WebHCatOptions where
  username : Option String
  port : Option Int
  hosts : Option (List String)

/-- The `WebHCat` constructor: apply the field defaults (`APP`, `50111`,
`['localhost']`), overwrite with any supplied options, then call
`changeHost()` once. -/
def WebHCat.construct (options : WebHCatOptions) : WebHCat :=
  WebHCat.changeHost
    { activeHostIndex := -1
      username := options.username.getD "APP"
      port := options.port.getD 50111
      hosts := options.hosts.getD ["localhost"]
      baseURL := "" }

/-- The transport collaborator: the outcome of the n-th HTTP attempt of a
logical call, as a function of the request issued. -/
abbrev Transport := Nat → HttpRequest → Except ReqError Value

/-- The observable outcome of one call to `WebHCat.request`: the client
state after the call, the HTTP requests issued (in order), the settled
result (`none` when the retry recursion exceeds the available fuel, i.e. the
promise never settles within that depth), and the contents of the
caller-supplied query-parameter object after the call (`request` mutates the
caller's object in place before issuing the first attempt). -/
structure RequestResult where
  client : WebHCat
  issued : List HttpRequest
  result : Option (Except ReqError Value)
  callerParams : StringMap
deriving Repr

/-- WebHCat.request: write `user.name` into the caller's query-parameter
object, issue the HTTP call against the stored base URL, and in the catch
handler: on a 503 `StatusCodeError` call `changeHost()` and retry with only
path and method (a fresh empty query-parameter map and no body); any other
error is rethrown unchanged.  `fuel` bounds the retry recursion depth of the
embedding; the source recursion is unbounded. -/
def WebHCat.request : Nat → Transport → Nat → WebHCat → String → String →
    StringMap → Option StringMap → RequestResult
  | 0, transport, attempt, c, path, method, queryParams, body =>
    let qp := setKey queryParams "user.name" c.username
    let req : HttpRequest := ⟨method, path, c.baseURL, qp, body⟩
    match transport attempt req with
    | Except.ok v => ⟨c, [req], some (Except.ok v), qp⟩
    | Except.error e =>
      if ReqError.isBusy e then ⟨c.changeHost, [req], none, qp⟩
      else ⟨c, [req], some (Except.error e), qp⟩
  | Nat.succ fuel, transport, attempt, c, path, method, queryParams, body =>
    let qp := setKey queryParams "user.name" c.username
    let req : HttpRequest := ⟨method, path, c.baseURL, qp, body⟩
    match transport attempt req with
    | Except.ok v => ⟨c, [req], some (Except.ok v), qp⟩
    | Except.error e =>
      if ReqError.isBusy e then
        let r := WebHCat.request fuel transport (attempt + 1) c.changeHost path method [] none
        ⟨r.client, req :: r.issued, r.result, qp⟩
      else ⟨c, [req], some (Except.error e), qp⟩

/-- WebHCat.get: delegate to `request` with method `GET`; an absent
query-parameter argument falls back to `request`'s default empty map. -/
def WebHCat.get (fuel : Nat) (transport : Transport) (attempt : Nat)
    (c : WebHCat) (path : String) (queryParams : Option StringMap) :
    RequestResult :=
  WebHCat.request fuel transport attempt c path "GET" (queryParams.getD []) none

/-- JavaScript field projection `res.k`: a missing field, or a receiver that
is not an object, yields `undefined`. -/
def Value.getField : Value → String → Value
  | Value.obj fields, k =>
    ((fields.find? (fun p => p.1 == k)).map Prod.snd).getD Value.undef
  | _, _ => Value.undef

/-- A `.then(res => f res)` projection applied to a settled successful
result; errors pass through it unchanged. -/
def RequestResult.thenMap (r : RequestResult) (f : Value → Value) :
    RequestResult :=
  { r with result := r.result.map (fun x => x.map f) }

/-- WebHCat.getServerStatus: GET `/status` and project the `status` field. -/
def WebHCat.getServerStatus (fuel : Nat) (transport : Transport)
    (attempt : Nat) (c : WebHCat) : RequestResult :=
  (WebHCat.get fuel transport attempt c "/status" none).thenMap
    (fun res => res.getField "status")

/-- WebHCat.describeTable: GET `/ddl/database/{database}/table/{table}`,
adding the query parameter `format=extended` when `extended` is true, and
return the decoded body unmodified. -/
def WebHCat.describeTable (fuel : Nat) (transport : Transport)
    (attempt : Nat) (c : WebHCat) (database table : String)
    (extended : Bool) : RequestResult :=
  let queryParams : StringMap := []
  let queryParams :=
    if extended then setKey queryParams "format" "extended" else queryParams
  WebHCat.get fuel transport attempt c
    ("/ddl/database/" ++ database ++ "/table/" ++ table) (some queryParams)

/-- WebHCat.listPartitions: GET
`/ddl/database/{database}/table/{table}/partition` and project the
`partitions` field. -/
def WebHCat.listPartitions (fuel : Nat) (transport : Transport)
    (attempt : Nat) (c : WebHCat) (database table : String) :
    RequestResult :=
  (WebHCat.get fuel transport attempt c
    ("/ddl/database/" ++ database ++ "/table/" ++ table ++ "/partition")
    none).thenMap (fun res => res.getField "partitions")

/-- Iterate `changeHost` n times (n successive calls to advance). -/
def WebHCat.advanceTimes (c : WebHCat) : Nat → WebHCat
  | 0 => c
  | Nat.succ n => (c.advanceTimes n).changeHost

/-- A transport whose first attempt reports server-busy (503) and whose
later attempts return a 200 response with body `{status: "ok"}`. -/
def busyThenOk : Transport := fun attempt _ =>
  if attempt == 0 then Except.error (ReqError.statusCode 503)
  else Except.ok (Value.obj [("status", Value.str "ok")])

/-- A transport that always succeeds with body `{status: "ok"}`. -/
def alwaysOk : Transport := fun _ _ =>
  Except.ok (Value.obj [("status", Value.str "ok")])

/-- A transport on which every host reports server-busy on every attempt. -/
def alwaysBusy : Transport := fun _ _ =>
  Except.error (ReqError.statusCode 503)

/-- A transport that always fails with the remote service's 10241
"table not partitioned" status code. -/
def notPartitioned : Transport := fun _ _ =>
  Except.error (ReqError.statusCode 10241)

example :
    (WebHCat.construct ⟨some "bob", some 1234, some ["h1", "h2"]⟩).baseURL
      = "http://h1:1234/templeton/v1" := by rfl

example :
    ((WebHCat.construct ⟨some "bob", some 1234, some ["h1", "h2"]⟩).changeHost).baseURL
      = "http://h2:1234/templeton/v1" := by rfl

example :
    (WebHCat.construct ⟨some "u", some 7, some []⟩).baseURL
      = "http://undefined:7/templeton/v1" := by rfl

theorem changeHost_hosts (c : WebHCat) : (c.changeHost).hosts = c.hosts := rfl

theorem changeHost_username (c : WebHCat) :
    (c.changeHost).username = c.username := rfl

theorem changeHost_port (c : WebHCat) : (c.changeHost).port = c.port := rfl

theorem lookupKey_setKey (m : StringMap) (k v : String) :
    lookupKey (setKey m k v) k = some v := by
  induction m with
  | nil => simp [setKey, lookupKey, List.find?]
  | cons p rest ih =>
    by_cases h : p.1 == k
    · simp [setKey, h, lookupKey, List.find?]
    · simpa [setKey, h, lookupKey, List.find?] using ih

theorem changeHost_index_mod (c : WebHCat)
    (h0 : 0 ≤ c.activeHostIndex)
    (h1 : c.activeHostIndex < (c.hosts.length : Int)) :
    (c.changeHost).activeHostIndex
      = (c.activeHostIndex + 1) % (c.hosts.length : Int) := by
  show (if c.activeHostIndex + 1 = (c.hosts.length : Int) then 0
        else c.activeHostIndex + 1)
      = (c.activeHostIndex + 1) % (c.hosts.length : Int)
  split
  · next h => rw [h, Int.emod_self]
  · next h => exact (Int.emod_eq_of_lt (by omega) (by omega)).symm

theorem advanceTimes_index (c : WebHCat)
    (h0 : 0 ≤ c.activeHostIndex)
    (h1 : c.activeHostIndex < (c.hosts.length : Int)) :
    ∀ n : Nat, (c.advanceTimes n).hosts = c.hosts ∧
      (c.advanceTimes n).activeHostIndex
        = (c.activeHostIndex + n) % (c.hosts.length : Int) := by
  have hN : 0 < (c.hosts.length : Int) := lt_of_le_of_lt h0 h1
  intro n
  induction n with
  | zero =>
    exact ⟨rfl, by simp [WebHCat.advanceTimes, Int.emod_eq_of_lt h0 h1]⟩
  | succ n ih =>
    obtain ⟨ihh, ihi⟩ := ih
    constructor
    · show ((c.advanceTimes n).changeHost).hosts = c.hosts
      rw [changeHost_hosts, ihh]
    · show ((c.advanceTimes n).changeHost).activeHostIndex = _
      have hb0 : 0 ≤ (c.advanceTimes n).activeHostIndex := by
        rw [ihi]; exact Int.emod_nonneg _ (by omega)
      have hb1 : (c.advanceTimes n).activeHostIndex
          < ((c.advanceTimes n).hosts.length : Int) := by
        rw [ihi, ihh]; exact Int.emod_lt_of_pos _ hN
      rw [changeHost_index_mod _ hb0 hb1, ihh, ihi, Int.emod_add_emod]
      push_cast
      ring_nf

/-- C3: for a non-empty pool of size N and a cursor value with
0 ≤ cursor < N, one call to advance sets the cursor to (cursor + 1) mod N,
the invariant 0 ≤ cursor < N holds after the advance, and N successive
advances return the cursor to its starting value. -/
theorem claim_C3_advance_cycle (c : WebHCat)
    (h0 : 0 ≤ c.activeHostIndex)
    (h1 : c.activeHostIndex < (c.hosts.length : Int)) :
    (c.changeHost).activeHostIndex
        = (c.activeHostIndex + 1) % (c.hosts.length : Int)
    ∧ 0 ≤ (c.changeHost).activeHostIndex
    ∧ (c.changeHost).activeHostIndex < (c.hosts.length : Int)
    ∧ (c.advanceTimes c.hosts.length).activeHostIndex = c.activeHostIndex := by
  have hN : 0 < (c.hosts.length : Int) := lt_of_le_of_lt h0 h1
  have hstep := changeHost_index_mod c h0 h1
  refine ⟨hstep, ?_, ?_, ?_⟩
  · rw [hstep]; exact Int.emod_nonneg _ (by omega)
  · rw [hstep]; exact Int.emod_lt_of_pos _ hN
  · rw [(advanceTimes_index c h0 h1 c.hosts.length).2]
    simpa using Int.emod_eq_of_lt h0 h1

/-- Witness for C3 at a concrete three-host pool with the cursor at 1. -/
theorem claim_C3_advance_cycle_witness :
    ((WebHCat.mk 1 "APP" 50111 ["a", "b", "c"] "").changeHost).activeHostIndex
        = (1 + 1) % ((3 : Nat) : Int)
    ∧ 0 ≤ ((WebHCat.mk 1 "APP" 50111 ["a", "b", "c"] "").changeHost).activeHostIndex
    ∧ ((WebHCat.mk 1 "APP" 50111 ["a", "b", "c"] "").changeHost).activeHostIndex
        < ((3 : Nat) : Int)
    ∧ ((WebHCat.mk 1 "APP" 50111 ["a", "b", "c"] "").advanceTimes 3).activeHostIndex
        = 1 :=
  claim_C3_advance_cycle (WebHCat.mk 1 "APP" 50111 ["a", "b", "c"] "")
    (by decide) (by decide)

theorem request_settles_not_busy (fuel : Nat) (transport : Transport)
    (attempt : Nat) (c : WebHCat) (path method : String) (qp : StringMap)
    (body : Option StringMap) (req : HttpRequest)
    (hreq : req = ⟨method, path, c.baseURL, setKey qp "user.name" c.username, body⟩)
    (h : ∀ e, transport attempt req = Except.error e → e.isBusy = false) :
    WebHCat.request fuel transport attempt c path method qp body
      = ⟨c, [req], some (transport attempt req),
         setKey qp "user.name" c.username⟩ := by
  subst hreq
  cases fuel with
  | zero =>
    simp only [WebHCat.request]
    cases htr : transport attempt
        ⟨method, path, c.baseURL, setKey qp "user.name" c.username, body⟩ with
    | ok v => simp [htr]
    | error e => simp [htr, h e htr]
  | succ f =>
    simp only [WebHCat.request]
    cases htr : transport attempt
        ⟨method, path, c.baseURL, setKey qp "user.name" c.username, body⟩ with
    | ok v => simp [htr]
    | error e => simp [htr, h e htr]

theorem request_issued_first (fuel : Nat) (transport : Transport)
    (attempt : Nat) (c : WebHCat) (path method : String) (qp : StringMap)
    (body : Option StringMap) :
    (WebHCat.request fuel transport attempt c path method qp body).issued.head?
      = some ⟨method, path, c.baseURL, setKey qp "user.name" c.username, body⟩ := by
  cases fuel with
  | zero =>
    simp only [WebHCat.request]
    split
    · rfl
    · split <;> rfl
  | succ f =>
    simp only [WebHCat.request]
    split
    · rfl
    · split <;> rfl

/-- C1: a request whose first attempt fails with a 503 StatusCodeError
advances the host cursor exactly once and reissues a request with the same
path and method against the new base URL; the retry carries only the
injected user.name parameter, with the caller's query parameters and body
absent. -/
theorem claim_C1_retry_on_503 (fuel : Nat) (transport : Transport)
    (c : WebHCat) (path method : String) (qp : StringMap)
    (body : Option StringMap)
    (h1 : transport 0 ⟨method, path, c.baseURL,
            setKey qp "user.name" c.username, body⟩
          = Except.error (ReqError.statusCode 503))
    (h2 : ∀ e, transport 1 ⟨method, path, (c.changeHost).baseURL,
            [("user.name", c.username)], none⟩
          = Except.error e → e.isBusy = false) :
    WebHCat.request (fuel + 1) transport 0 c path method qp body
      = ⟨c.changeHost,
         [⟨method, path, c.baseURL, setKey qp "user.name" c.username, body⟩,
          ⟨method, path, (c.changeHost).baseURL,
           [("user.name", c.username)], none⟩],
         some (transport 1 ⟨method, path, (c.changeHost).baseURL,
                [("user.name", c.username)], none⟩),
         setKey qp "user.name" c.username⟩ := by
  have hinner := request_settles_not_busy fuel transport 1 c.changeHost path
    method [] none
    ⟨method, path, (c.changeHost).baseURL, [("user.name", c.username)], none⟩
    rfl h2
  simp only [WebHCat.request, h1, ReqError.isBusy]
  simp only [show ((503 : Int) == 503) = true from rfl, if_true, hinner]

/-- C2: a request failing with any error other than a 503 StatusCodeError
propagates that exact error to the caller; the cursor is not advanced and no
retry is issued. -/
theorem claim_C2_non_busy_propagates (fuel : Nat) (transport : Transport)
    (attempt : Nat) (c : WebHCat) (path method : String) (qp : StringMap)
    (body : Option StringMap) (e : ReqError)
    (h1 : transport attempt ⟨method, path, c.baseURL,
            setKey qp "user.name" c.username, body⟩ = Except.error e)
    (h2 : e.isBusy = false) :
    WebHCat.request fuel transport attempt c path method qp body
      = ⟨c, [⟨method, path, c.baseURL, setKey qp "user.name" c.username, body⟩],
         some (Except.error e), setKey qp "user.name" c.username⟩ := by
  have h := request_settles_not_busy fuel transport attempt c path method qp
    body _ rfl (fun e2 hh => by
      rw [h1] at hh
      injection hh with h3
      rw [← h3]
      exact h2)
  rw [h, h1]

/-- C7: a request whose first HTTP attempt succeeds leaves the client state
(cursor and stored base URL) unchanged, issues no further request, and
returns the decoded response body. -/
theorem claim_C7_success_no_advance (fuel : Nat) (transport : Transport)
    (attempt : Nat) (c : WebHCat) (path method : String) (qp : StringMap)
    (body : Option StringMap) (v : Value)
    (h : transport attempt ⟨method, path, c.baseURL,
           setKey qp "user.name" c.username, body⟩ = Except.ok v) :
    WebHCat.request fuel transport attempt c path method qp body
      = ⟨c, [⟨method, path, c.baseURL, setKey qp "user.name" c.username, body⟩],
         some (Except.ok v), setKey qp "user.name" c.username⟩ := by
  have hh := request_settles_not_busy fuel transport attempt c path method qp
    body _ rfl (fun e2 h2 => by rw [h] at h2; cases h2)
  rw [hh, h]

/-- Witness for C1: the end-to-end scenario with pool [h1, h2], port 1234
and identity bob, where the first attempt against h1 returns 503 and the
retry against h2 succeeds. -/
theorem claim_C1_retry_on_503_witness :
    WebHCat.request 1 busyThenOk 0
        (WebHCat.construct ⟨some "bob", some 1234, some ["h1", "h2"]⟩)
        "/status" "GET" [] none
      = ⟨(WebHCat.construct ⟨some "bob", some 1234, some ["h1", "h2"]⟩).changeHost,
         [⟨"GET", "/status", "http://h1:1234/templeton/v1",
           [("user.name", "bob")], none⟩,
          ⟨"GET", "/status", "http://h2:1234/templeton/v1",
           [("user.name", "bob")], none⟩],
         some (Except.ok (Value.obj [("status", Value.str "ok")])),
         [("user.name", "bob")]⟩ :=
  claim_C1_retry_on_503 0 busyThenOk
    (WebHCat.construct ⟨some "bob", some 1234, some ["h1", "h2"]⟩)
    "/status" "GET" [] none (by rfl)
    (fun e h => by simp [busyThenOk] at h)

/-- Witness for C2: the listPartitions path against an unpartitioned table,
where the remote responds with status 10241 and the error is propagated with
no host change. -/
theorem claim_C2_non_busy_propagates_witness :
    WebHCat.request 5 notPartitioned 0 (WebHCat.construct ⟨none, none, none⟩)
        "/ddl/database/d/table/t/partition" "GET" [] none
      = ⟨WebHCat.construct ⟨none, none, none⟩,
         [⟨"GET", "/ddl/database/d/table/t/partition",
           "http://localhost:50111/templeton/v1", [("user.name", "APP")], none⟩],
         some (Except.error (ReqError.statusCode 10241)),
         [("user.name", "APP")]⟩ :=
  claim_C2_non_busy_propagates 5 notPartitioned 0
    (WebHCat.construct ⟨none, none, none⟩)
    "/ddl/database/d/table/t/partition" "GET" [] none
    (ReqError.statusCode 10241) (by rfl) (by decide)

/-- Witness for C7: a first-attempt success against the default host leaves
the client unchanged and returns the decoded body. -/
theorem claim_C7_success_no_advance_witness :
    WebHCat.request 3 alwaysOk 0 (WebHCat.construct ⟨none, none, none⟩)
        "/status" "GET" [] none
      = ⟨WebHCat.construct ⟨none, none, none⟩,
         [⟨"GET", "/status", "http://localhost:50111/templeton/v1",
           [("user.name", "APP")], none⟩],
         some (Except.ok (Value.obj [("status", Value.str "ok")])),
         [("user.name", "APP")]⟩ :=
  claim_C7_success_no_advance 3 alwaysOk 0
    (WebHCat.construct ⟨none, none, none⟩) "/status" "GET" [] none
    (Value.obj [("status", Value.str "ok")]) (by rfl)

/-- C4: every request handed to the transport carries query parameter
user.name equal to the configured identity, overwriting any caller-supplied
value under that key. -/
theorem claim_C4_user_name_injected (fuel : Nat) (transport : Transport)
    (attempt : Nat) (c : WebHCat) (path method : String) (qp : StringMap)
    (body : Option StringMap) :
    ∀ req ∈ (WebHCat.request fuel transport attempt c path method qp body).issued,
      lookupKey req.qs "user.name" = some c.username := by
  induction fuel generalizing attempt c qp body with
  | zero =>
    intro req hreq
    simp only [WebHCat.request] at hreq
    split at hreq
    · simp only [List.mem_singleton] at hreq
      rw [hreq]
      exact lookupKey_setKey qp "user.name" c.username
    · split at hreq <;>
      · simp only [List.mem_singleton] at hreq
        rw [hreq]
        exact lookupKey_setKey qp "user.name" c.username
  | succ f ih =>
    intro req hreq
    simp only [WebHCat.request] at hreq
    split at hreq
    · simp only [List.mem_singleton] at hreq
      rw [hreq]
      exact lookupKey_setKey qp "user.name" c.username
    · split at hreq
      · simp only [List.mem_cons] at hreq
        cases hreq with
        | inl h =>
          rw [h]
          exact lookupKey_setKey qp "user.name" c.username
        | inr h =>
          have := ih (attempt + 1) c.changeHost [] none req h
          rw [changeHost_username] at this
          exact this
      · simp only [List.mem_singleton] at hreq
        rw [hreq]
        exact lookupKey_setKey qp "user.name" c.username

/-- Witness for C4: the first issued request of a call that supplied a
conflicting user.name value carries the configured identity instead. -/
theorem claim_C4_user_name_injected_witness :
    lookupKey
      (HttpRequest.qs ⟨"GET", "/status", "http://localhost:50111/templeton/v1",
        [("user.name", "APP")], none⟩) "user.name" = some "APP" :=
  claim_C4_user_name_injected 2 alwaysOk 0
    (WebHCat.construct ⟨none, none, none⟩) "/status" "GET"
    [("user.name", "eve")] none
    ⟨"GET", "/status", "http://localhost:50111/templeton/v1",
      [("user.name", "APP")], none⟩ (by decide)

/-- C6: on a transport where every attempt reports 503, the retry recursion
never settles: for every recursion depth the embedded promise has no
result. -/
theorem claim_C6_all_busy_never_settles (transport : Transport)
    (hbusy : ∀ n req, transport n req
        = Except.error (ReqError.statusCode 503)) :
    ∀ fuel attempt c path method qp body,
      (WebHCat.request fuel transport attempt c path method qp body).result
        = none := by
  intro fuel
  induction fuel with
  | zero =>
    intro attempt c path method qp body
    simp [WebHCat.request, hbusy, ReqError.isBusy]
  | succ f ih =>
    intro attempt c path method qp body
    simp only [WebHCat.request, hbusy, ReqError.isBusy]
    simpa using ih (attempt + 1) c.changeHost path method [] none

/-- Witness for C6: with every host permanently busy, a request against the
default client has no result at recursion depth 7. -/
theorem claim_C6_all_busy_never_settles_witness :
    (WebHCat.request 7 alwaysBusy 0 (WebHCat.construct ⟨none, none, none⟩)
      "/status" "GET" [] none).result = none :=
  claim_C6_all_busy_never_settles alwaysBusy (fun _ _ => rfl) 7 0
    (WebHCat.construct ⟨none, none, none⟩) "/status" "GET" [] none

/-- C10: the dispatcher writes the user.name entry into the caller-supplied
query-parameter object itself before issuing the call, so after the call the
caller's own map contains the identity under key user.name. -/
theorem claim_C10_caller_map_mutated (fuel : Nat) (transport : Transport)
    (attempt : Nat) (c : WebHCat) (path method : String) (qp : StringMap)
    (body : Option StringMap) :
    (WebHCat.request fuel transport attempt c path method qp body).callerParams
        = setKey qp "user.name" c.username
    ∧ lookupKey
        (WebHCat.request fuel transport attempt c path method qp body).callerParams
        "user.name" = some c.username := by
  have h : (WebHCat.request fuel transport attempt c path method qp
      body).callerParams = setKey qp "user.name" c.username := by
    cases fuel with
    | zero =>
      simp only [WebHCat.request]
      split
      · rfl
      · split <;> rfl
    | succ f =>
      simp only [WebHCat.request]
      split
      · rfl
      · split <;> rfl
  exact ⟨h, by rw [h]; exact lookupKey_setKey qp "user.name" c.username⟩

theorem jsIndexAsString_zero (a : String) (tl : List String) :
    jsIndexAsString (a :: tl) 0 = a := by
  rw [jsIndexAsString, dif_pos ⟨le_refl 0, Nat.succ_pos tl.length⟩]
  rfl

/-- C5: changeHost stores the base URL http://{host}:{port}/templeton/v1
with host the pool entry at the new cursor; the constructor calls changeHost
once, so a freshly constructed client has cursor 0 and its first request is
issued against the host at index 0 of the pool. -/
theorem claim_C5_baseURL_from_cursor (c : WebHCat)
    (h0 : 0 ≤ c.activeHostIndex)
    (h1 : c.activeHostIndex < (c.hosts.length : Int))
    (u : Option String) (p : Option Int) (hs : List String) (hne : hs ≠ [])
    (fuel : Nat) (transport : Transport) (path method : String)
    (qp : StringMap) (body : Option StringMap) :
    (∃ hin : ((c.changeHost).activeHostIndex).toNat < c.hosts.length,
      (c.changeHost).baseURL
        = "http://" ++ c.hosts.get ⟨((c.changeHost).activeHostIndex).toNat, hin⟩
          ++ ":" ++ toString c.port ++ "/templeton/v1")
    ∧ (WebHCat.construct ⟨u, p, some hs⟩).activeHostIndex = 0
    ∧ (WebHCat.request fuel transport 0 (WebHCat.construct ⟨u, p, some hs⟩)
        path method qp body).issued.head?.map HttpRequest.baseUrl
      = some ("http://" ++ hs.head hne ++ ":" ++ toString (p.getD 50111)
          ++ "/templeton/v1") := by
  have hstep := changeHost_index_mod c h0 h1
  have hN : 0 < (c.hosts.length : Int) := lt_of_le_of_lt h0 h1
  have hi0 : 0 ≤ (c.changeHost).activeHostIndex := by
    rw [hstep]; exact Int.emod_nonneg _ (ne_of_gt hN)
  have hi1 : (c.changeHost).activeHostIndex < (c.hosts.length : Int) := by
    rw [hstep]; exact Int.emod_lt_of_pos _ hN
  have hin : ((c.changeHost).activeHostIndex).toNat < c.hosts.length := by
    simpa using (Int.toNat_lt_toNat hN).mpr hi1
  refine ⟨⟨hin, ?_⟩, ?_, ?_⟩
  · show "http://" ++ jsIndexAsString c.hosts (c.changeHost).activeHostIndex
        ++ ":" ++ toString c.port ++ "/templeton/v1" = _
    rw [jsIndexAsString, dif_pos ⟨hi0, hin⟩]
  · show (if (-1 : Int) + 1 = (hs.length : Int) then 0 else (-1 : Int) + 1) = 0
    split <;> omega
  · have hb : (WebHCat.construct ⟨u, p, some hs⟩).baseURL
        = "http://" ++ hs.head hne ++ ":" ++ toString (p.getD 50111)
          ++ "/templeton/v1" := by
      cases hs with
      | nil => exact absurd rfl hne
      | cons a tl =>
        show "http://"
            ++ jsIndexAsString (a :: tl)
                (if (-1 : Int) + 1 = ((a :: tl).length : Int) then 0
                 else (-1 : Int) + 1)
            ++ ":" ++ toString (p.getD 50111) ++ "/templeton/v1" = _
        have hcond : ¬((-1 : Int) + 1 = ((a :: tl).length : Int)) := by
          simp only [List.length_cons]
          omega
        rw [if_neg hcond]
        norm_num [jsIndexAsString_zero, List.head_cons]
    rw [request_issued_first fuel transport 0 _ path method qp body]
    simpa using hb

/-- Witness for C5 at the two-host pool [h1, h2] with the cursor at 0. -/
theorem claim_C5_baseURL_from_cursor_witness :
    (∃ hin : (((WebHCat.mk 0 "bob" 1234 ["h1", "h2"] "").changeHost).activeHostIndex).toNat
        < (WebHCat.mk 0 "bob" 1234 ["h1", "h2"] "").hosts.length,
      ((WebHCat.mk 0 "bob" 1234 ["h1", "h2"] "").changeHost).baseURL
        = "http://"
          ++ (WebHCat.mk 0 "bob" 1234 ["h1", "h2"] "").hosts.get
              ⟨(((WebHCat.mk 0 "bob" 1234 ["h1", "h2"] "").changeHost).activeHostIndex).toNat, hin⟩
          ++ ":" ++ toString (WebHCat.mk 0 "bob" 1234 ["h1", "h2"] "").port
          ++ "/templeton/v1")
    ∧ (WebHCat.construct ⟨some "bob", some 1234, some ["h1", "h2"]⟩).activeHostIndex = 0
    ∧ (WebHCat.request 2 alwaysOk 0
        (WebHCat.construct ⟨some "bob", some 1234, some ["h1", "h2"]⟩)
        "/status" "GET" [] none).issued.head?.map HttpRequest.baseUrl
      = some ("http://" ++ ["h1", "h2"].head (by decide)
          ++ ":" ++ toString ((some (1234 : Int)).getD 50111) ++ "/templeton/v1") :=
  claim_C5_baseURL_from_cursor (WebHCat.mk 0 "bob" 1234 ["h1", "h2"] "")
    (by decide) (by decide) (some "bob") (some 1234) ["h1", "h2"] (by decide)
    2 alwaysOk "/status" "GET" [] none

/-- C8: describeTable with the extended flag issues a GET to
/ddl/database/{d}/table/{t} with query parameters format=extended and the
injected identity, and resolves with the decoded body unmodified; without
the flag the format parameter is absent. -/
theorem claim_C8_describeTable_format (fuel : Nat) (transport : Transport)
    (c : WebHCat) (d t : String) (v : Value)
    (h : transport 0 ⟨"GET", "/ddl/database/" ++ d ++ "/table/" ++ t,
          c.baseURL, [("format", "extended"), ("user.name", c.username)],
          none⟩ = Except.ok v) :
    WebHCat.describeTable fuel transport 0 c d t true
      = ⟨c, [⟨"GET", "/ddl/database/" ++ d ++ "/table/" ++ t, c.baseURL,
             [("format", "extended"), ("user.name", c.username)], none⟩],
         some (Except.ok v),
         [("format", "extended"), ("user.name", c.username)]⟩
    ∧ (WebHCat.describeTable fuel transport 0 c d t false).issued.head?.map
        HttpRequest.qs = some [("user.name", c.username)] := by
  constructor
  · have hh := request_settles_not_busy fuel transport 0 c
      ("/ddl/database/" ++ d ++ "/table/" ++ t) "GET" [("format", "extended")]
      none
      ⟨"GET", "/ddl/database/" ++ d ++ "/table/" ++ t, c.baseURL,
        [("format", "extended"), ("user.name", c.username)], none⟩
      rfl (fun e he => by rw [h] at he; cases he)
    show WebHCat.request fuel transport 0 c
        ("/ddl/database/" ++ d ++ "/table/" ++ t) "GET"
        [("format", "extended")] none = _
    rw [hh, h]
    rfl
  · show (WebHCat.request fuel transport 0 c
        ("/ddl/database/" ++ d ++ "/table/" ++ t) "GET" [] none).issued.head?.map
        HttpRequest.qs = _
    rw [request_issued_first]
    rfl

/-- Witness for C8: describeTable of database d, table t against the
default client on an always-successful transport. -/
theorem claim_C8_describeTable_format_witness :
    WebHCat.describeTable 2 alwaysOk 0 (WebHCat.construct ⟨none, none, none⟩)
        "d" "t" true
      = ⟨WebHCat.construct ⟨none, none, none⟩,
         [⟨"GET", "/ddl/database/d/table/t",
           "http://localhost:50111/templeton/v1",
           [("format", "extended"), ("user.name", "APP")], none⟩],
         some (Except.ok (Value.obj [("status", Value.str "ok")])),
         [("format", "extended"), ("user.name", "APP")]⟩
    ∧ (WebHCat.describeTable 2 alwaysOk 0
        (WebHCat.construct ⟨none, none, none⟩) "d" "t" false).issued.head?.map
        HttpRequest.qs = some [("user.name", "APP")] :=
  claim_C8_describeTable_format 2 alwaysOk
    (WebHCat.construct ⟨none, none, none⟩) "d" "t"
    (Value.obj [("status", Value.str "ok")]) (by rfl)

/-- C9: constructing a client with an empty host pool does not fail: the
cursor wraps to 0, the pool lookup yields undefined, the stored base URL is
the literal string http://undefined:{port}/templeton/v1, and requests are
issued against that URL. -/
theorem claim_C9_empty_pool (u : String) (p : Int) (fuel : Nat)
    (transport : Transport) (path method : String) (qp : StringMap)
    (body : Option StringMap) :
    (WebHCat.construct ⟨some u, some p, some []⟩).activeHostIndex = 0
    ∧ (WebHCat.construct ⟨some u, some p, some []⟩).baseURL
        = "http://undefined:" ++ toString p ++ "/templeton/v1"
    ∧ (WebHCat.request fuel transport 0
        (WebHCat.construct ⟨some u, some p, some []⟩) path method qp
        body).issued.head?.map HttpRequest.baseUrl
      = some ("http://undefined:" ++ toString p ++ "/templeton/v1") := by
  have h2 : (WebHCat.construct ⟨some u, some p, some []⟩).baseURL
      = "http://undefined:" ++ toString p ++ "/templeton/v1" := rfl
  refine ⟨rfl, h2, ?_⟩
  rw [request_issued_first fuel transport 0 _ path method qp body]
  simpa using h2
